import Mathlib

/-!
Verification development for the nerwhal core (src/nerwhal/core.py,
src/nerwhal/backends/__init__.py, src/nerwhal/backends/entity_ruler_backend.py,
src/nerwhal/backends/flair_ner_backend.py,
src/nerwhal/example_recognizers/email_recognizer.py).

The Python code is shallowly embedded: pure functions become Lean functions,
the mutable `Core` object becomes explicit state passing, exceptions become
`Option`/`Except` values, Python floats become `Rat`.  External collaborators
that are not part of the repository source under src/ (the spaCy/stanza/flair
models, the Tokenizer, `nerwhal.utils.add_token_indices`, the combination
strategies, the dynamic module loader and the filesystem) are parameters of
the embedding (`FileSystem`, `Env`, `combine`), so every theorem quantifies
over their behaviour.
-/

/-- `NamedEntity` from nerwhal.types as used by core.py: character span,
tag, covered text, confidence score, provenance, and the token span that
`add_token_indices` fills in. -/
structure NamedEntity where
  start_char : Nat := 0
  end_char : Nat := 0
  tag : String := ""
  text : String := ""
  score : Rat := 0
  recognizer : String := ""
  model : String := ""
  start_tok : Nat := 0
  end_tok : Nat := 0
deriving DecidableEq, Repr

/-- A token produced by the external tokenizer: index `i`, surface text,
character span and the identifier of the sentence it belongs to (the
tokenizer is an external collaborator; the sentence id is how we model its
`get_sentence_for_token` capability). -/
structure Token where
  i : Nat := 0
  text : String := ""
  start_char : Nat := 0
  end_char : Nat := 0
  sent : Nat := 0
deriving DecidableEq, Repr

/-- `Config` from nerwhal.types as consumed by core.py: compared by value in
`Core.update_config`. -/
structure Config where
  language : String := ""
  recognizer_paths : List String := []
  load_example_recognizers : Bool := false
  use_statistical_ner : Bool := false
  context_word_confidence_boost_factor : Rat := 1
deriving DecidableEq, Repr

/-- A recognizer class as seen by core.py: its `__name__`, its `BACKEND`
identifier, its `TAG`, `SCORE`, `CONTEXT_WORDS` and the backend specific
pattern/rule payload.  `CONTEXT_WORDS` defaults to the empty vocabulary:
the recognizer base classes (nerwhal/recognizer_bases, not under src/) are
modelled from the spec, which calls `CONTEXT_WORDS` an "optional trigger
vocabulary", so a recognizer that does not configure context words has the
empty one. -/
structure RecognizerCls where
  name : String := ""
  BACKEND : String := ""
  TAG : String := ""
  SCORE : Rat := 0
  CONTEXT_WORDS : List String := []
  payload : List String := []
deriving DecidableEq, Repr

/-- A backend instance held in `Core.backends`: which implementation it is
and which recognizers have been registered into it.  The heavyweight model
state of the real backends is external and irrelevant to the claims. -/
structure Backend where
  kind : String := ""
  recognizers : List RecognizerCls := []
deriving DecidableEq, Repr

/-- The mutable state of the `Core` singleton of core.py: the currently
applied config, the ordered backend registry and the recognizer lookup.
The tokenizer it also holds is external and modelled through `Env`. -/
structure Core where
  config : Option Config := none
  backends : List (String × Backend) := []
  recognizer_lookup : List (String × RecognizerCls) := []
deriving DecidableEq, Repr

/-- The parts of the environment that `Core.update_config` consults:
`os.path.isfile`, `os.listdir` of the example recognizer directory, and the
dynamic class loader `Core._load_class` (importlib machinery, external). -/
structure FileSystem where
  isFile : String → Bool
  listExampleDir : List String
  loadClass : String → RecognizerCls

/-- The external run-time collaborators of `recognize`: the behaviour of
`backend.run` for a registered backend (spaCy/stanza/re models are not under
src/), the tokenizer, and `nerwhal.utils.add_token_indices`, which mutates
each entity's token fields in place (it never adds or removes entities), so
it is modelled as a per-entity update function. -/
structure Env where
  runBackend : Backend → String → Except String (List NamedEntity)
  tokenize : String → List Token
  setTokenIndices : NamedEntity → List Token → NamedEntity

/-- Python dict lookup on an association list (insertion ordered, like the
dicts core.py uses for `backends` and `recognizer_lookup`). -/
def lookupAssoc {α : Type} : List (String × α) → String → Option α
  | [], _ => none
  | (k', v) :: rest, k => if k' = k then some v else lookupAssoc rest k

/-- Python dict insertion: overwrite in place if the key exists, append
otherwise. -/
def insertAssoc {α : Type} : List (String × α) → String → α → List (String × α)
  | [], k, v => [(k, v)]
  | (k', v') :: rest, k, v =>
    if k' = k then (k', v) :: rest else (k', v') :: insertAssoc rest k v

/-- Python `key in dict`. -/
def containsKey {α : Type} (l : List (String × α)) (k : String) : Bool :=
  (lookupAssoc l k).isSome

/-- `self.backends[recognizer_cls.BACKEND].register_recognizer(recognizer_cls)`:
the recognizer is appended to the recognizers installed into the backend
stored under key `k`. -/
def registerIntoBackends : List (String × Backend) → String → RecognizerCls →
    List (String × Backend)
  | [], _, _ => []
  | (k', b) :: rest, k, cls =>
    if k' = k then (k', { b with recognizers := b.recognizers ++ [cls] }) :: rest
    else (k', b) :: registerIntoBackends rest k cls

/-- `nerwhal.backends.load` from src/nerwhal/backends/__init__.py: only the
identifiers "spacy" and "re" resolve to a backend class; everything else
raises `ValueError(f"Unknow backend type {backend}")`. -/
def backends_load (backend : String) : Except String String :=
  if backend = "spacy" then Except.ok ("SpacyBackend")
  else if backend = "re" then Except.ok ("ReBackend")
  else Except.error ("Unknow backend type " ++ backend)

/-- The backend identifiers that `Core.update_config` can ever store as keys
of `self.backends`: "stanza" directly, and the identifiers accepted by
`nerwhal.backends.load`. -/
def builtinBackendKeys : List String := ["stanza", "spacy", "re"]

/-- `EXAMPLE_RECOGNIZERS_PATH` from core.py. -/
def EXAMPLE_RECOGNIZERS_PATH : String := "nerwhal/example_recognizers"

/-- Python `str.endswith`, written out on the character lists so that it is
kernel-computable. -/
def strEndsWith (s p : String) : Bool :=
  decide (p.data.length ≤ s.data.length) &&
    (s.data.drop (s.data.length - p.data.length) == p.data)

/-- One iteration of the loop in `Core._add_examples_to_config_recognizer_paths`:
files ending in "_recognizer.py" are joined to the example directory and
appended to `config.recognizer_paths` unless already present.  The append
happens on the caller's aliased list object. -/
def addExampleStep (cfg : Config) (file : String) : Config :=
  if strEndsWith file ("_recognizer.py") then
    let examplePath := EXAMPLE_RECOGNIZERS_PATH ++ "/" ++ file
    if cfg.recognizer_paths.contains examplePath then cfg
    else { cfg with recognizer_paths := cfg.recognizer_paths ++ [examplePath] }
  else cfg

/-- `Core._add_examples_to_config_recognizer_paths`: iterates over the files
of the example recognizer directory, mutating `self.config.recognizer_paths`
(which is the caller's list) in place. -/
def add_examples_to_config_recognizer_paths (fs : FileSystem) (cfg : Config) : Config :=
  fs.listExampleDir.foldl addExampleStep cfg

/-- The `for recognizer_path in self.config.recognizer_paths` loop of
`Core.update_config` (core.py lines 48-66).  Returns the state as left
behind by the loop together with the raised error, if any: a path that is
not a file raises ValueError; a recognizer whose `BACKEND` is not yet
registered triggers `nerwhal.backends.load`, which raises for unknown
identifiers; otherwise the backend is created (fresh, no recognizers) and
the recognizer is registered into it. -/
def Core.processRecognizerPaths (fs : FileSystem) : Core → List String → Core × Option String
  | st, [] => (st, none)
  | st, path :: rest =>
    if fs.isFile path then
      let cls := fs.loadClass path
      let st1 : Core :=
        { st with recognizer_lookup := insertAssoc st.recognizer_lookup cls.name cls }
      if containsKey st1.backends cls.BACKEND then
        Core.processRecognizerPaths fs
          { st1 with backends := registerIntoBackends st1.backends cls.BACKEND cls } rest
      else
        match backends_load cls.BACKEND with
        | Except.error e => (st1, some e)
        | Except.ok _ =>
          let st2 : Core :=
            { st1 with backends :=
                insertAssoc st1.backends cls.BACKEND { kind := cls.BACKEND, recognizers := [] } }
          Core.processRecognizerPaths fs
            { st2 with backends := registerIntoBackends st2.backends cls.BACKEND cls } rest
    else
      (st, some ("Configured recognizer " ++ path ++ " is not a file"))

/-- `Core.update_config` (core.py lines 26-66).  The result is the new core
state, the caller's config object after the call (`self.config = config`
aliases it, so the in-place appends of
`_add_examples_to_config_recognizer_paths` are visible to the caller), and
the raised error message, if any.  Mirroring Python exceptions, the mutated
state is kept even when an error is raised, and in particular `self.config`
is assigned before any validation happens. -/
def Core.update_config (fs : FileSystem) (st : Core) (config : Config) :
    Core × Config × Option String :=
  if st.config = some config then (st, config, none)
  else
    let st1 : Core := { st with config := some config, backends := [], recognizer_lookup := [] }
    let st2 : Core :=
      if config.use_statistical_ner then
        { st1 with backends := [("stanza", { kind := "stanza", recognizers := [] })] }
      else st1
    let config2 :=
      if config.load_example_recognizers then
        add_examples_to_config_recognizer_paths fs config
      else config
    let st3 : Core := { st2 with config := some config2 }
    let pr := Core.processRecognizerPaths fs st3 config2.recognizer_paths
    (pr.1, config2, pr.2)

/-- The value a child process of `Core._run_in_parallel` sends over its
pipe: the backend's entity list on success; nothing when `backend.run`
raises (the child dies without sending, leaving the channel empty). -/
def okValue : Except String (List NamedEntity) → Option (List NamedEntity)
  | Except.ok v => some v
  | Except.error _ => none

/-- One backend job finishing: job `i` writes its outcome to its private
channel, leaving every other channel alone. -/
def sendStep (runs : List (String → Except String (List NamedEntity))) (text : String)
    (chans : Nat → Option (List NamedEntity)) (i : Nat) : Nat → Option (List NamedEntity) :=
  fun j => if j = i then (runs[i]?).bind (fun r => okValue (r text)) else chans j

/-- The channel contents after the jobs have completed in the order given by
`order` (each job writes only to its own one-shot pipe, so the order cannot
influence any channel's final value). -/
def sendAll (runs : List (String → Except String (List NamedEntity))) (text : String)
    (order : List Nat) : Nat → Option (List NamedEntity) :=
  order.foldl (sendStep runs text) (fun _ => none)

/-- `[conn.recv() for conn in pipe_conns]`: read the channels back in
registration order.  Reading an empty channel blocks forever, so the whole
collection yields no list at all in that case (`none`). -/
def collectChannels {α : Type} (ch : Nat → Option α) : List Nat → Option (List α)
  | [] => some []
  | i :: rest =>
    match ch i, collectChannels ch rest with
    | some v, some vs => some (v :: vs)
    | _, _ => none

/-- `Core._run_in_parallel` (core.py lines 88-103): spawn one process per
backend, each writing `backend.run(text)` to its private pipe; after joining,
read the pipes back in registration order.  `order` is the completion order
of the processes. -/
def run_in_parallel (runs : List (String → Except String (List NamedEntity)))
    (text : String) (order : List Nat) : Option (List (List NamedEntity)) :=
  collectChannels (sendAll runs text order) (List.range runs.length)

/-- `Core.run_recognition` (core.py lines 84-86). -/
def Core.run_recognition (env : Env) (st : Core) (text : String) (order : List Nat) :
    Option (List (List NamedEntity)) :=
  run_in_parallel (st.backends.map (fun kb => env.runBackend kb.2)) text order

/-- The tokenizer's `get_sentence_for_token`.  Modelled from the spec: the
tokenizer (nerwhal/tokenizer.py) is not under src/; per the spec the
capability returns the "sequence of Token belonging to the same sentence"
as the token with the given index. -/
def get_sentence_for_token (tokens : List Token) (i : Nat) : List Token :=
  match tokens.find? (fun t => t.i == i) with
  | none => []
  | some t => tokens.filter (fun u => u.sent == t.sent)

/-- The filtered sentence of core.py lines 139-142: the texts of the tokens
of the sentence containing `ent.start_tok`, excluding the tokens whose index
lies in the entity's own range `[start_tok, end_tok)`. -/
def sentence_without_ent (tokens : List Token) (ent : NamedEntity) : List String :=
  ((get_sentence_for_token tokens ent.start_tok).filter
    (fun t => decide (t.i < ent.start_tok) || decide (ent.end_tok ≤ t.i))).map Token.text

/-- The body of the context-word loop of `recognize` (core.py lines 138-145)
for one entity: look up the entity's originating recognizer class (a missing
key raises, hence `Option`), and if any of its `CONTEXT_WORDS` occurs among
the sentence token texts outside the entity, set the score - once - to
`min(score * boost_factor, 1.0)`. -/
def boost_ent (lookup : List (String × RecognizerCls)) (boost_factor : Rat)
    (tokens : List Token) (ent : NamedEntity) : Option NamedEntity :=
  match lookupAssoc lookup ent.recognizer with
  | none => none
  | some cls =>
    if cls.CONTEXT_WORDS.any (fun word => (sentence_without_ent tokens ent).contains word) then
      some { ent with score := min (ent.score * boost_factor) 1 }
    else some ent

/-- The whole context-word loop of `recognize`: each entity is boosted at
most once; a lookup failure for any entity aborts the call. -/
def boost_ents (lookup : List (String × RecognizerCls)) (boost_factor : Rat)
    (tokens : List Token) : List NamedEntity → Option (List NamedEntity)
  | [] => some []
  | e :: rest =>
    match boost_ent lookup boost_factor tokens e, boost_ents lookup boost_factor tokens rest with
    | some e', some rest' => some (e' :: rest')
    | _, _ => none

/-- The dict returned by `recognize`: the key "ents" is always present, the
key "tokens" only when `compute_tokens` is true, which the `Option` models. -/
structure RecognizeResult where
  tokens : Option (List Token) := none
  ents : List NamedEntity := []
deriving DecidableEq, Repr

/-- `recognize` (core.py lines 109-148): update the config (errors
propagate), run all backends (a backend failure aborts the call), combine
the per-backend lists unless there are none, optionally attach token
indices, optionally boost scores with context words, and assemble the
result dict.  `combine` (nerwhal.combination_strategies, external to the
embedded core) is a parameter; the completion order is fixed to
registration order, which is harmless because the orchestrator's result is
independent of it. -/
def recognize (fs : FileSystem) (env : Env)
    (combine : List (List NamedEntity) → String → List NamedEntity)
    (st : Core) (text : String) (config : Config) (combination_strategy : String)
    (context_words : Bool) (compute_tokens : Bool) :
    Core × Config × Except String RecognizeResult :=
  let u := Core.update_config fs st config
  match u.2.2 with
  | some e => (u.1, u.2.1, Except.error e)
  | none =>
    match Core.run_recognition env u.1 text (List.range u.1.backends.length) with
    | none => (u.1, u.2.1, Except.error ("BackendExecutionFailure"))
    | some results =>
      let ents := if results.length = 0 then ([] : List NamedEntity)
                  else combine results combination_strategy
      let toks := env.tokenize text
      let ents1 := if compute_tokens || context_words then
                     ents.map (fun e => env.setTokenIndices e toks)
                   else ents
      let bf : Rat :=
        match u.1.config with
        | some c => c.context_word_confidence_boost_factor
        | none => 1
      match (if context_words then boost_ents u.1.recognizer_lookup bf toks ents1
             else some ents1) with
      | none => (u.1, u.2.1, Except.error ("KeyError"))
      | some ents2 =>
        (u.1, u.2.1,
          Except.ok { tokens := if compute_tokens then some toks else none, ents := ents2 })

/-- `EmailRecognizer` from src/nerwhal/example_recognizers/email_recognizer.py:
`TAG = "EMAIL"`, `SCORE = 0.95`; it is an `ReRecognizer` (hence hosted by the
"re" backend) and does not define `CONTEXT_WORDS`, so the inherited empty
default applies.  The regular-expression payload is backend specific and not
needed by any claim, so it is left abstract here. -/
def EmailRecognizer : RecognizerCls :=
  { name := "EmailRecognizer", BACKEND := "re", TAG := "EMAIL", SCORE := 19/20,
    CONTEXT_WORDS := [], payload := [] }

/-- `FlairNerBackend` from src/nerwhal/backends/flair_ner_backend.py: wraps a
flair `SequenceTagger` loaded from `model_path` (the model itself is
external). -/
structure FlairNerBackend where
  model_path : String := "pytorch_model.bin"
deriving DecidableEq, Repr

/-- `FlairNerBackend.register_recognizer` raises `NotImplementedError()` for
every recognizer class. -/
def FlairNerBackend.register_recognizer (b : FlairNerBackend) (cls : RecognizerCls) :
    Except String Unit :=
  Except.error ("NotImplementedError")

/-- `EntityRulerBackend` from src/nerwhal/backends/entity_ruler_backend.py:
holds a spaCy pipeline (external); we track the pipe names added to it and
the (label, pattern) rules installed into its entity rulers. -/
structure EntityRulerBackend where
  language : String := ""
  pipe_names : List String := []
  rules : List (String × String) := []
deriving DecidableEq, Repr

/-- `EntityRulerBackend.register_recognizer`: adds an `EntityRuler` pipe
named after the recognizer class, fills it with one
`(label := TAG, pattern)` rule per pattern, and adds the score-labelling
pipe `"label_" + name` after it.  Pure side effect on the backend, no
meaningful return value, no exception. -/
def EntityRulerBackend.register_recognizer (b : EntityRulerBackend) (cls : RecognizerCls) :
    Except String EntityRulerBackend :=
  Except.ok { b with
    pipe_names := b.pipe_names ++ [cls.name, "label_" ++ cls.name],
    rules := b.rules ++ cls.payload.map (fun p => (cls.TAG, p)) }

/-! Concrete instances used to exercise the definitions on closed inputs. -/

/-- A fresh `Core()` as created at module import time (core.py line 106). -/
def core0 : Core := {}

/-- A filesystem on which no path is a file. -/
def fs0 : FileSystem :=
  { isFile := fun _ => false, listExampleDir := [], loadClass := fun _ => EmailRecognizer }

/-- A config naming a recognizer path that is not a file. -/
def cfg0 : Config :=
  { language := "de", recognizer_paths := ["does_not_exist.py"],
    load_example_recognizers := false, use_statistical_ner := false,
    context_word_confidence_boost_factor := 2 }

/-- A filesystem whose example directory holds the bundled email recognizer
and on which every path is a file. -/
def fs1 : FileSystem :=
  { isFile := fun _ => true, listExampleDir := ["email_recognizer.py"],
    loadClass := fun _ => EmailRecognizer }

/-- A config with no recognizer paths of its own that asks for the bundled
example recognizers. -/
def cfg1 : Config :=
  { language := "de", recognizer_paths := [], load_example_recognizers := true,
    use_statistical_ner := false, context_word_confidence_boost_factor := 2 }

/-- A config with no recognizer paths and no example recognizers: after
`update_config` no backend at all is registered. -/
def cfg10 : Config :=
  { language := "de", recognizer_paths := [], load_example_recognizers := false,
    use_statistical_ner := false, context_word_confidence_boost_factor := 2 }

/-- An environment whose backends all succeed with no entities and whose
tokenizer yields no tokens. -/
def env0 : Env :=
  { runBackend := fun _ _ => Except.ok [],
    tokenize := fun _ => [],
    setTokenIndices := fun e _ => e }

/-- A combination strategy returning a sentinel non-empty list, to show that
`recognize` does not consult it when there are no backend results. -/
def combine0 : List (List NamedEntity) → String → List NamedEntity :=
  fun _ _ => [{ tag := "SENTINEL" }]

/-- A rule recognizer with a context word, used to exercise the booster. -/
def PhoneRecognizer : RecognizerCls :=
  { name := "PhoneRecognizer", BACKEND := "re", TAG := "PHONE", SCORE := 4/5,
    CONTEXT_WORDS := ["phone"], payload := [] }

/-- An entity found by `PhoneRecognizer` covering token 0. -/
def phoneEnt : NamedEntity :=
  { start_char := 0, end_char := 4, tag := "PHONE", text := "1234", score := 4/5,
    recognizer := "PhoneRecognizer", model := "PhoneRecognizer",
    start_tok := 0, end_tok := 1 }

/-- One sentence of two tokens: the entity's own token and the trigger word
"phone" right after it. -/
def phoneTokens : List Token :=
  [{ i := 0, text := "1234", start_char := 0, end_char := 4, sent := 0 },
   { i := 1, text := "phone", start_char := 5, end_char := 10, sent := 0 }]

/-- An entity found by `EmailRecognizer` (which has no context words). -/
def emailEnt : NamedEntity :=
  { start_char := 0, end_char := 5, tag := "EMAIL", text := "a@b.c", score := 19/20,
    recognizer := "EmailRecognizer", model := "EmailRecognizer",
    start_tok := 0, end_tok := 1 }

/-- Entities used as fixed backend outputs for the orchestrator claims. -/
def entA : NamedEntity := { start_char := 0, end_char := 4, tag := "EMAIL", score := 9/10 }

/-- Second fixed backend output. -/
def entB : NamedEntity := { start_char := 5, end_char := 9, tag := "PHONE", score := 7/10 }

/-- A core with two registered backends, "re" first and "spacy" second. -/
def core4 : Core :=
  { config := none,
    backends := [("re", { kind := "re" }), ("spacy", { kind := "spacy" })],
    recognizer_lookup := [] }

/-- An environment where the "re" backend finds `entA` and every other
backend finds `entB`. -/
def env4 : Env :=
  { runBackend := fun b _ => if b.kind = "re" then Except.ok [entA] else Except.ok [entB],
    tokenize := fun _ => [],
    setTokenIndices := fun e _ => e }

/-- A core with a single registered backend. -/
def core5 : Core :=
  { config := none, backends := [("re", { kind := "re" })], recognizer_lookup := [] }

/-- An environment whose backends always raise. -/
def env5 : Env :=
  { runBackend := fun _ _ => Except.error "boom",
    tokenize := fun _ => [],
    setTokenIndices := fun e _ => e }

/-- A recognizer declaring the unknown backend identifier "flair-ner"
(the flair backend implementation exists in the repository but the loader
does not know it). -/
def FlairRecognizer : RecognizerCls :=
  { name := "FlairRecognizer", BACKEND := "flair-ner", TAG := "MISC", SCORE := 1,
    CONTEXT_WORDS := [], payload := [] }

/-- A filesystem that resolves every path to `FlairRecognizer`. -/
def fs6 : FileSystem :=
  { isFile := fun _ => true, listExampleDir := [], loadClass := fun _ => FlairRecognizer }

/-- A config naming one recognizer file (which `fs6` resolves to a
recognizer with an unknown backend identifier). -/
def cfg6 : Config :=
  { language := "de", recognizer_paths := ["flair_recognizer.py"],
    load_example_recognizers := false, use_statistical_ner := false,
    context_word_confidence_boost_factor := 2 }

/-- A recognizer declaring the backend identifier "entity-ruler", for which
`Core.update_config` has a dedicated construction branch. -/
def RulerRecognizer : RecognizerCls :=
  { name := "RulerRecognizer", BACKEND := "entity-ruler", TAG := "MISC", SCORE := 1,
    CONTEXT_WORDS := [], payload := ["pattern"] }

/-- A filesystem that resolves every path to `RulerRecognizer`. -/
def fs9 : FileSystem :=
  { isFile := fun _ => true, listExampleDir := [], loadClass := fun _ => RulerRecognizer }

/-- A config naming one recognizer file (which `fs9` resolves to an
"entity-ruler" recognizer). -/
def cfg9 : Config :=
  { language := "de", recognizer_paths := ["ruler_recognizer.py"],
    load_example_recognizers := false, use_statistical_ner := false,
    context_word_confidence_boost_factor := 2 }

/-- A flair backend instance with the default model path. -/
def flair0 : FlairNerBackend := {}

/-! Helper lemmas about the orchestrator channels. -/

theorem foldl_sendStep_apply (runs : List (String → Except String (List NamedEntity)))
    (text : String) (order : List Nat) (init : Nat → Option (List NamedEntity)) (j : Nat) :
    (order.foldl (sendStep runs text) init) j =
      if j ∈ order then (runs[j]?).bind (fun r => okValue (r text)) else init j := by
  induction order generalizing init with
  | nil => simp
  | cons i rest ih =>
    simp only [List.foldl_cons]
    rw [ih]
    by_cases hj : j ∈ rest
    · simp [hj]
    · by_cases hji : j = i
      · subst hji
        simp [hj, sendStep]
      · simp [hj, hji, sendStep, List.mem_cons]

theorem sendAll_apply (runs : List (String → Except String (List NamedEntity)))
    (text : String) (order : List Nat) (j : Nat) :
    sendAll runs text order j =
      if j ∈ order then (runs[j]?).bind (fun r => okValue (r text)) else none := by
  unfold sendAll
  rw [foldl_sendStep_apply]

theorem collectChannels_eq_some {α : Type} (ch : Nat → Option α) {idxs : List Nat}
    {res : List α} (h : List.Forall₂ (fun i v => ch i = some v) idxs res) :
    collectChannels ch idxs = some res := by
  induction h with
  | nil => rfl
  | cons h1 h2 ih => simp [collectChannels, h1, ih]

theorem collectChannels_eq_none {α : Type} (ch : Nat → Option α) {idxs : List Nat} {j : Nat}
    (hj : j ∈ idxs) (hch : ch j = none) :
    collectChannels ch idxs = none := by
  induction idxs with
  | nil => cases hj
  | cons i rest ih =>
    rcases List.mem_cons.mp hj with h | h
    · subst h
      simp [collectChannels, hch]
    · have hr := ih h
      simp only [collectChannels, hr]
      cases ch i <;> rfl

theorem runs_getElem (env : Env) (st : Core) (text : String) (i : Nat)
    (hi : i < st.backends.length) :
    (st.backends.map (fun kb => env.runBackend kb.2))[i]? =
      some (env.runBackend (st.backends.get ⟨i, hi⟩).2) := by
  rw [List.getElem?_map, List.getElem?_eq_getElem hi]
  simp

/-! Helper lemmas about the config-rebuild loop. -/

theorem processRecognizerPaths_config (fs : FileSystem) :
    ∀ (paths : List String) (st : Core),
      ((Core.processRecognizerPaths fs st paths).1).config = st.config := by
  intro paths
  induction paths with
  | nil => intro st; rfl
  | cons p rest ih =>
    intro st
    simp only [Core.processRecognizerPaths]
    split
    · split
      · rw [ih]
      · split
        · rfl
        · rw [ih]
    · rfl

theorem processRecognizerPaths_bad_path (fs : FileSystem) :
    ∀ (paths : List String) (st : Core) (p : String), p ∈ paths → fs.isFile p = false →
      ((Core.processRecognizerPaths fs st paths).2).isSome = true := by
  intro paths
  induction paths with
  | nil => intro st p hp _; cases hp
  | cons q rest ih =>
    intro st p hp hbad
    simp only [Core.processRecognizerPaths]
    split
    · rename_i hq
      have hpr : p ∈ rest := by
        rcases List.mem_cons.mp hp with h | h
        · subst h; rw [hq] at hbad; cases hbad
        · exact h
      split
      · exact ih _ p hpr hbad
      · split
        · rfl
        · exact ih _ p hpr hbad
    · rfl

theorem lookupAssoc_mem {α : Type} : ∀ (l : List (String × α)) (k : String) (v : α),
    lookupAssoc l k = some v → (k, v) ∈ l := by
  intro l
  induction l with
  | nil => intro k v h; cases h
  | cons kv rest ih =>
    obtain ⟨k', v'⟩ := kv
    intro k v h
    simp only [lookupAssoc] at h
    by_cases hk : k' = k
    · rw [if_pos hk] at h
      obtain rfl := Option.some.inj h
      subst hk
      exact List.mem_cons_self _ _
    · rw [if_neg hk] at h
      exact List.mem_cons_of_mem _ (ih k v h)

theorem mem_insertAssoc {α : Type} : ∀ (l : List (String × α)) (k : String) (v : α)
    (kv : String × α), kv ∈ insertAssoc l k v → kv ∈ l ∨ kv.1 = k := by
  intro l
  induction l with
  | nil =>
    intro k v kv h
    rcases List.mem_singleton.mp h with rfl
    exact Or.inr rfl
  | cons kv0 rest ih =>
    obtain ⟨k', v'⟩ := kv0
    intro k v kv h
    simp only [insertAssoc] at h
    by_cases hk : k' = k
    · rw [if_pos hk] at h
      rcases List.mem_cons.mp h with rfl | hm
      · exact Or.inr hk
      · exact Or.inl (List.mem_cons_of_mem _ hm)
    · rw [if_neg hk] at h
      rcases List.mem_cons.mp h with rfl | hm
      · exact Or.inl (List.mem_cons_self _ _)
      · rcases ih k v kv hm with hm' | he
        · exact Or.inl (List.mem_cons_of_mem _ hm')
        · exact Or.inr he

theorem mem_registerIntoBackends : ∀ (l : List (String × Backend)) (k : String)
    (cls : RecognizerCls) (kv : String × Backend),
    kv ∈ registerIntoBackends l k cls → ∃ kv' ∈ l, kv.1 = kv'.1 := by
  intro l
  induction l with
  | nil => intro k cls kv h; cases h
  | cons kv0 rest ih =>
    obtain ⟨k', b⟩ := kv0
    intro k cls kv h
    simp only [registerIntoBackends] at h
    by_cases hk : k' = k
    · rw [if_pos hk] at h
      rcases List.mem_cons.mp h with rfl | hm
      · exact ⟨(k', b), List.mem_cons_self _ _, rfl⟩
      · exact ⟨kv, List.mem_cons_of_mem _ hm, rfl⟩
    · rw [if_neg hk] at h
      rcases List.mem_cons.mp h with rfl | hm
      · exact ⟨(k', b), List.mem_cons_self _ _, rfl⟩
      · rcases ih k cls kv hm with ⟨kv', hkv', he⟩
        exact ⟨kv', List.mem_cons_of_mem _ hkv', he⟩

theorem backends_load_ok (b c : String) (h : backends_load b = Except.ok c) :
    b = "spacy" ∨ b = "re" := by
  by_cases h1 : b = "spacy"
  · exact Or.inl h1
  · by_cases h2 : b = "re"
    · exact Or.inr h2
    · rw [backends_load, if_neg h1, if_neg h2] at h
      cases h

theorem processRecognizerPaths_unknown_backend (fs : FileSystem) :
    ∀ (paths : List String) (st : Core),
      (∀ kv ∈ st.backends, kv.1 ∈ builtinBackendKeys) →
      (∃ p ∈ paths, fs.isFile p = true ∧ (fs.loadClass p).BACKEND ∉ builtinBackendKeys) →
      ((Core.processRecognizerPaths fs st paths).2).isSome = true := by
  intro paths
  induction paths with
  | nil =>
    intro st _ hex
    obtain ⟨p, hp, -, -⟩ := hex
    cases hp
  | cons q rest ih =>
    intro st hinv hex
    obtain ⟨p, hp, hpf, hpb⟩ := hex
    simp only [Core.processRecognizerPaths]
    split
    · rename_i hq
      split
      · rename_i hc
        have hqb : (fs.loadClass q).BACKEND ∈ builtinBackendKeys := by
          have hs : (lookupAssoc st.backends (fs.loadClass q).BACKEND).isSome = true := hc
          obtain ⟨b, hb⟩ := Option.isSome_iff_exists.mp hs
          exact hinv _ (lookupAssoc_mem _ _ _ hb)
        have hpq : p ≠ q := fun h => hpb (h ▸ hqb)
        have hpr : p ∈ rest := by
          rcases List.mem_cons.mp hp with h | h
          · exact absurd h hpq
          · exact h
        refine ih _ ?_ ⟨p, hpr, hpf, hpb⟩
        intro kv hkv
        obtain ⟨kv', hkv', he⟩ := mem_registerIntoBackends _ _ _ _ hkv
        rw [he]
        exact hinv _ hkv'
      · split
        · rfl
        · rename_i c hload
          have hqb : (fs.loadClass q).BACKEND ∈ builtinBackendKeys := by
            rcases backends_load_ok _ _ hload with h | h <;>
              simp [builtinBackendKeys, h]
          have hpq : p ≠ q := fun h => hpb (h ▸ hqb)
          have hpr : p ∈ rest := by
            rcases List.mem_cons.mp hp with h | h
            · exact absurd h hpq
            · exact h
          refine ih _ ?_ ⟨p, hpr, hpf, hpb⟩
          intro kv hkv
          obtain ⟨kv', hkv', he⟩ := mem_registerIntoBackends _ _ _ _ hkv
          rw [he]
          rcases mem_insertAssoc _ _ _ _ hkv' with hm | hk
          · exact hinv _ hm
          · rw [hk]
            exact hqb
    · rfl

/-! Helper lemma about the example-recognizer appends: the loop only ever
appends to the caller's `recognizer_paths` list. -/

theorem foldl_addExampleStep_paths : ∀ (files : List String) (c : Config),
    ∃ extra, files.foldl addExampleStep c =
      { c with recognizer_paths := c.recognizer_paths ++ extra } := by
  intro files
  induction files with
  | nil =>
    intro c
    exact ⟨[], by simp⟩
  | cons f rest ih =>
    intro c
    rw [List.foldl_cons]
    by_cases h1 : strEndsWith f ("_recognizer.py") = true
    · by_cases h2 :
          c.recognizer_paths.contains (EXAMPLE_RECOGNIZERS_PATH ++ "/" ++ f) = true
      · have hstep : addExampleStep c f = c := by
          simp only [addExampleStep, h1, if_true]
          rw [if_pos h2]
        rw [hstep]
        exact ih c
      · have hstep : addExampleStep c f =
            { c with recognizer_paths :=
                c.recognizer_paths ++ [EXAMPLE_RECOGNIZERS_PATH ++ "/" ++ f] } := by
          simp only [addExampleStep, h1, if_true]
          rw [if_neg h2]
        rw [hstep]
        obtain ⟨extra, hex⟩ := ih
          { c with recognizer_paths :=
              c.recognizer_paths ++ [EXAMPLE_RECOGNIZERS_PATH ++ "/" ++ f] }
        refine ⟨(EXAMPLE_RECOGNIZERS_PATH ++ "/" ++ f) :: extra, ?_⟩
        rw [hex]
        simp [Config.mk.injEq, List.append_assoc]
    · have hstep : addExampleStep c f = c := by
        simp [addExampleStep, h1]
      rw [hstep]
      exact ih c

theorem add_examples_paths (fs : FileSystem) (cfg : Config) :
    ∃ extra, add_examples_to_config_recognizer_paths fs cfg =
      { cfg with recognizer_paths := cfg.recognizer_paths ++ extra } :=
  foldl_addExampleStep_paths fs.listExampleDir cfg

/-! The claims. -/

/-- C4: for every registered-backend mapping and every text, when every
backend's run call succeeds, `run_recognition` returns a list containing
exactly one entity list per registered backend, paired with the backends in
registration order (`Forall₂`), for every completion order of the backend
processes that completes every job. -/
theorem claim_C4 (env : Env) (st : Core) (text : String) (order : List Nat)
    (results : List (List NamedEntity))
    (hord : ∀ i, i < st.backends.length → i ∈ order)
    (hok : List.Forall₂ (fun kb res => env.runBackend kb.2 text = Except.ok res)
      st.backends results) :
    Core.run_recognition env st text order = some results := by
  have hlen := hok.length_eq
  obtain ⟨-, hget⟩ := List.forall₂_iff_get.mp hok
  unfold Core.run_recognition run_in_parallel
  apply collectChannels_eq_some
  rw [List.forall₂_iff_get]
  refine ⟨by simp [hlen], ?_⟩
  intro i h1 h2
  have hi : i < st.backends.length := by simpa using h1
  rw [List.get_range, sendAll_apply, if_pos (hord i hi), runs_getElem env st text i hi]
  show okValue (env.runBackend (st.backends.get ⟨i, hi⟩).2 text) = _
  rw [hget i hi h2]
  rfl

/-- Witness for C4: two backends, completion order reversed relative to
registration order; the result still pairs each backend with its own output
in registration order. -/
theorem claim_C4_witness :
    (∀ i, i < core4.backends.length → i ∈ [1, 0])
    ∧ Core.run_recognition env4 core4 "x" [1, 0] = some [[entA], [entB]] :=
  ⟨by decide,
   claim_C4 env4 core4 "x" [1, 0] [[entA], [entB]] (by decide)
     (List.Forall₂.cons rfl (List.Forall₂.cons rfl List.Forall₂.nil))⟩

/-- C5: if any backend's run raises during parallel execution, the whole
orchestration yields no result list at all (the failed child never sends,
so the parent's read blocks): no partial per-backend list is ever returned,
whatever the completion order. -/
theorem claim_C5 (env : Env) (st : Core) (text : String) (order : List Nat) (i : Nat)
    (hi : i < st.backends.length) (e : String)
    (herr : env.runBackend (st.backends.get ⟨i, hi⟩).2 text = Except.error e) :
    Core.run_recognition env st text order = none := by
  unfold Core.run_recognition run_in_parallel
  refine collectChannels_eq_none _ (j := i) ?_ ?_
  · rw [List.mem_range, List.length_map]
    exact hi
  · rw [sendAll_apply]
    by_cases hio : i ∈ order
    · rw [if_pos hio, runs_getElem env st text i hi]
      show okValue (env.runBackend (st.backends.get ⟨i, hi⟩).2 text) = none
      rw [herr]
      rfl
    · rw [if_neg hio]

/-- Witness for C5: a single backend that raises makes the orchestration
produce nothing. -/
theorem claim_C5_witness :
    env5.runBackend (core5.backends.get ⟨0, by decide⟩).2 "x" = Except.error "boom"
    ∧ Core.run_recognition env5 core5 "x" [0] = none :=
  ⟨rfl, claim_C5 env5 core5 "x" [0] 0 (by decide) "boom" rfl⟩

/-- C1: for an entity whose originating recognizer is configured, the
context-word pass sets the score exactly once to
`min(score * boost_factor, 1.0)` - hence never above 1.0 - when some
configured context word occurs among the token texts of the entity's
sentence outside the entity's own token range, and leaves the entity
unchanged otherwise. -/
theorem claim_C1 (lookup : List (String × RecognizerCls)) (bf : Rat)
    (tokens : List Token) (ent : NamedEntity) (cls : RecognizerCls)
    (h : lookupAssoc lookup ent.recognizer = some cls) :
    ((∃ w ∈ cls.CONTEXT_WORDS, w ∈ sentence_without_ent tokens ent) →
        boost_ent lookup bf tokens ent =
          some { ent with score := min (ent.score * bf) 1 }
        ∧ min (ent.score * bf) 1 ≤ 1)
    ∧ ((¬ ∃ w ∈ cls.CONTEXT_WORDS, w ∈ sentence_without_ent tokens ent) →
        boost_ent lookup bf tokens ent = some ent) := by
  have hany :
      (cls.CONTEXT_WORDS.any (fun word => (sentence_without_ent tokens ent).contains word))
        = true ↔ ∃ w ∈ cls.CONTEXT_WORDS, w ∈ sentence_without_ent tokens ent := by
    simp [List.any_eq_true]
  constructor
  · intro hex
    refine ⟨?_, min_le_right _ _⟩
    simp only [boost_ent, h]
    rw [if_pos (hany.mpr hex)]
  · intro hnex
    have hfalse :
        (cls.CONTEXT_WORDS.any (fun word => (sentence_without_ent tokens ent).contains word))
          = false := by
      rcases Bool.eq_false_or_eq_true
          (cls.CONTEXT_WORDS.any
            (fun word => (sentence_without_ent tokens ent).contains word)) with ht | hf
      · exact absurd (hany.mp ht) hnex
      · exact hf
    simp only [boost_ent, h]
    rw [hfalse]
    simp

/-- Witness for C1: the spec's scenario 6 - score 0.8, boost factor 1.2,
trigger word "phone" present elsewhere in the sentence - so the score is
boosted once to min(0.96, 1.0). -/
theorem claim_C1_witness :
    lookupAssoc [("PhoneRecognizer", PhoneRecognizer)] phoneEnt.recognizer =
        some PhoneRecognizer
    ∧ (∃ w ∈ PhoneRecognizer.CONTEXT_WORDS, w ∈ sentence_without_ent phoneTokens phoneEnt)
    ∧ boost_ent [("PhoneRecognizer", PhoneRecognizer)] (6/5) phoneTokens phoneEnt =
        some { phoneEnt with score := min (phoneEnt.score * (6/5)) 1 } :=
  ⟨rfl, ⟨"phone", by decide, by decide⟩,
   ((claim_C1 [("PhoneRecognizer", PhoneRecognizer)] (6/5) phoneTokens phoneEnt
        PhoneRecognizer rfl).1 ⟨"phone", by decide, by decide⟩).1⟩

/-- C8: an entity whose originating recognizer defines no context words
(such as `EmailRecognizer`) passes through the context-word pass without
error and with its score unchanged. -/
theorem claim_C8 (lookup : List (String × RecognizerCls)) (bf : Rat)
    (tokens : List Token) (ent : NamedEntity)
    (h : lookupAssoc lookup ent.recognizer = some EmailRecognizer) :
    boost_ent lookup bf tokens ent = some ent := by
  simp only [boost_ent, h, EmailRecognizer]
  rfl

/-- Witness for C8: a concrete email entity is left untouched by the
booster. -/
theorem claim_C8_witness :
    lookupAssoc [("EmailRecognizer", EmailRecognizer)] emailEnt.recognizer =
        some EmailRecognizer
    ∧ boost_ent [("EmailRecognizer", EmailRecognizer)] 2 phoneTokens emailEnt =
        some emailEnt :=
  ⟨rfl, claim_C8 [("EmailRecognizer", EmailRecognizer)] 2 phoneTokens emailEnt rfl⟩

/-- `update_config` returns immediately when the incoming config equals the
stored one (core.py lines 32-33). -/
theorem update_config_noop (fs : FileSystem) (st : Core) (cfg : Config)
    (h : st.config = some cfg) : Core.update_config fs st cfg = (st, cfg, none) := by
  simp only [Core.update_config]
  rw [if_pos h]

/-- On a rebuild, the caller's config object after the call is the original
one with the example-recognizer appends applied (if requested). -/
theorem update_config_caller_config (fs : FileSystem) (st : Core) (cfg : Config)
    (hne : ¬ st.config = some cfg) :
    (Core.update_config fs st cfg).2.1 =
      (if cfg.load_example_recognizers then add_examples_to_config_recognizer_paths fs cfg
       else cfg) := by
  simp only [Core.update_config]
  rw [if_neg hne]

/-- After any call to `update_config` - also a failed one - `self.config`
holds exactly the caller's (possibly mutated) config object: the assignment
happens before validation. -/
theorem update_config_retains (fs : FileSystem) (st : Core) (cfg : Config) :
    ((Core.update_config fs st cfg).1).config =
      some ((Core.update_config fs st cfg).2.1) := by
  by_cases h : st.config = some cfg
  · rw [update_config_noop fs st cfg h]
    exact h
  · simp only [Core.update_config]
    rw [if_neg h]
    dsimp only
    rw [processRecognizerPaths_config]

/-- A recognizer path that is not a file makes a rebuilding `update_config`
raise. -/
theorem update_config_bad_path (fs : FileSystem) (st : Core) (cfg : Config)
    (hne : ¬ st.config = some cfg) (p : String)
    (hp : p ∈ (if cfg.load_example_recognizers then
        add_examples_to_config_recognizer_paths fs cfg else cfg).recognizer_paths)
    (hbad : fs.isFile p = false) :
    ((Core.update_config fs st cfg).2.2).isSome = true := by
  simp only [Core.update_config]
  rw [if_neg hne]
  dsimp only
  exact processRecognizerPaths_bad_path fs _ _ p hp hbad

/-- A recognizer whose `BACKEND` is none of the identifiers that
`update_config` can ever have registered ("stanza", "spacy", "re") makes a
rebuilding `update_config` raise. -/
theorem update_config_unknown_backend (fs : FileSystem) (st : Core) (cfg : Config)
    (p : String) (hne : ¬ st.config = some cfg) (hp : p ∈ cfg.recognizer_paths)
    (hfile : fs.isFile p = true) (hbk : (fs.loadClass p).BACKEND ∉ builtinBackendKeys) :
    ((Core.update_config fs st cfg).2.2).isSome = true := by
  simp only [Core.update_config]
  rw [if_neg hne]
  dsimp only
  apply processRecognizerPaths_unknown_backend fs _ _ ?hinv ?hex
  case hinv =>
    intro kv hkv
    rcases Bool.eq_false_or_eq_true cfg.use_statistical_ner with hs | hs
    · rw [hs] at hkv
      simp only [if_true] at hkv
      rcases List.mem_singleton.mp hkv with rfl
      simp [builtinBackendKeys]
    · rw [hs] at hkv
      simp only [Bool.false_eq_true, if_false] at hkv
      cases hkv
  case hex =>
    refine ⟨p, ?_, hfile, hbk⟩
    rcases Bool.eq_false_or_eq_true cfg.load_example_recognizers with hl | hl
    · rw [hl]
      simp only [if_true]
      obtain ⟨extra, hx⟩ := add_examples_paths fs cfg
      rw [hx]
      exact List.mem_append_left _ hp
    · rw [hl]
      simpa using hp

/-- C2 as stated is false: because `self.config = config` happens before
validation, a second call with a config equal to the one that just failed
hits the equality gate and returns silently - at the concrete input below,
the first call raises and the invalid config is retained, yet the second
call with the very same config returns no error. -/
theorem claim_C2_counterexample :
    (Core.update_config fs0 core0 cfg0).2.2 =
        some ("Configured recognizer does_not_exist.py is not a file")
    ∧ (Core.update_config fs0 core0 cfg0).1.config = some cfg0
    ∧ Core.update_config fs0 (Core.update_config fs0 core0 cfg0).1 cfg0 =
        ((Core.update_config fs0 core0 cfg0).1, cfg0, none) :=
  ⟨rfl, rfl, rfl⟩

/-- C2 amended: a first rebuilding call with a recognizer path that is not
a file raises a configuration error; but the invalid config is retained as
the current config, so a second call passing an equal config returns
silently with no error. -/
theorem claim_C2_amended (fs : FileSystem) (st : Core) (cfg : Config)
    (hne : st.config ≠ some cfg) (hex : cfg.load_example_recognizers = false)
    (hbad : ∃ p ∈ cfg.recognizer_paths, fs.isFile p = false) :
    ((Core.update_config fs st cfg).2.2).isSome = true
    ∧ ((Core.update_config fs st cfg).1).config = some cfg
    ∧ Core.update_config fs (Core.update_config fs st cfg).1 cfg =
        ((Core.update_config fs st cfg).1, cfg, none) := by
  obtain ⟨p, hp, hbadp⟩ := hbad
  have hcc : (Core.update_config fs st cfg).2.1 = cfg := by
    rw [update_config_caller_config fs st cfg hne, hex]
    simp
  have hret : ((Core.update_config fs st cfg).1).config = some cfg := by
    rw [update_config_retains fs st cfg, hcc]
  refine ⟨?_, hret, update_config_noop _ _ _ hret⟩
  apply update_config_bad_path fs st cfg hne p ?_ hbadp
  rw [hex]
  simpa using hp

/-- Witness for the amended C2 at the concrete failing input. -/
theorem claim_C2_witness :
    core0.config ≠ some cfg0
    ∧ cfg0.load_example_recognizers = false
    ∧ (∃ p ∈ cfg0.recognizer_paths, fs0.isFile p = false)
    ∧ ((Core.update_config fs0 core0 cfg0).2.2).isSome = true
    ∧ Core.update_config fs0 (Core.update_config fs0 core0 cfg0).1 cfg0 =
        ((Core.update_config fs0 core0 cfg0).1, cfg0, none) := by
  have h := claim_C2_amended fs0 core0 cfg0 (by decide) rfl
    ⟨"does_not_exist.py", by decide, rfl⟩
  exact ⟨by decide, rfl, ⟨"does_not_exist.py", by decide, rfl⟩, h.1, h.2.2⟩

/-- C3 as stated is false: with `load_example_recognizers = True`, the
bundled example paths are appended in place to the caller's
`recognizer_paths` list, so the caller's Config is mutated. -/
theorem claim_C3_counterexample :
    (Core.update_config fs1 core0 cfg1).2.1 ≠ cfg1
    ∧ (Core.update_config fs1 core0 cfg1).2.1.recognizer_paths =
        ["nerwhal/example_recognizers/email_recognizer.py"] :=
  ⟨by decide, rfl⟩

/-- C3 amended: `update_config` leaves the caller's Config unchanged when
`load_example_recognizers` is false; in general it only ever appends (the
missing bundled example recognizer paths) to the caller's
`recognizer_paths`, leaving every other field intact. -/
theorem claim_C3_amended (fs : FileSystem) (st : Core) (cfg : Config) :
    (cfg.load_example_recognizers = false → (Core.update_config fs st cfg).2.1 = cfg)
    ∧ ∃ extra, (Core.update_config fs st cfg).2.1 =
        { cfg with recognizer_paths := cfg.recognizer_paths ++ extra } := by
  by_cases h : st.config = some cfg
  · rw [update_config_noop fs st cfg h]
    exact ⟨fun _ => rfl, ⟨[], by simp⟩⟩
  · rw [update_config_caller_config fs st cfg h]
    constructor
    · intro hex
      rw [hex]
      simp
    · rcases Bool.eq_false_or_eq_true cfg.load_example_recognizers with hl | hl
      · rw [if_pos hl]
        exact add_examples_paths fs cfg
      · rw [if_neg (by simp [hl])]
        exact ⟨[], by simp⟩

/-- Witness for the amended C3: with example loading off, the caller's
config comes back unchanged. -/
theorem claim_C3_witness :
    cfg0.load_example_recognizers = false
    ∧ (Core.update_config fs0 core0 cfg0).2.1 = cfg0 :=
  ⟨rfl, (claim_C3_amended fs0 core0 cfg0).1 rfl⟩

/-- C6: a recognizer declaring a backend identifier that names no known
backend implementation makes a rebuilding `update_config` raise, and the
error is raised before any recognition work: `recognize` fails with it for
every possible backend-run behaviour, combination strategy and flag
setting. -/
theorem claim_C6 (fs : FileSystem) (st : Core) (cfg : Config) (p : String)
    (hne : st.config ≠ some cfg) (hp : p ∈ cfg.recognizer_paths)
    (hfile : fs.isFile p = true)
    (hbk : (fs.loadClass p).BACKEND ∉ builtinBackendKeys) :
    ((Core.update_config fs st cfg).2.2).isSome = true
    ∧ ∀ (env : Env) (combine : List (List NamedEntity) → String → List NamedEntity)
        (strategy : String) (ctw cpt : Bool) (text : String),
        ∃ e, (recognize fs env combine st text cfg strategy ctw cpt).2.2 =
          Except.error e := by
  have herr := update_config_unknown_backend fs st cfg p hne hp hfile hbk
  refine ⟨herr, ?_⟩
  intro env combine strategy ctw cpt text
  obtain ⟨e, he⟩ := Option.isSome_iff_exists.mp herr
  refine ⟨e, ?_⟩
  simp only [recognize]
  rw [he]

/-- Witness for C6: a recognizer declaring BACKEND "flair-ner" (the flair
backend exists in the repository but the loader does not know it). -/
theorem claim_C6_witness :
    core0.config ≠ some cfg6
    ∧ "flair_recognizer.py" ∈ cfg6.recognizer_paths
    ∧ fs6.isFile "flair_recognizer.py" = true
    ∧ (fs6.loadClass "flair_recognizer.py").BACKEND ∉ builtinBackendKeys
    ∧ ((Core.update_config fs6 core0 cfg6).2.2).isSome = true
    ∧ ∃ e, (recognize fs6 env0 combine0 core0 "x" cfg6 "append" false true).2.2 =
        Except.error e := by
  have h := claim_C6 fs6 core0 cfg6 "flair_recognizer.py" (by decide) (by decide) rfl
    (by decide)
  exact ⟨by decide, by decide, rfl, by decide, h.1,
    h.2 env0 combine0 "append" false true "x"⟩

/-- C9: the backend loader accepts exactly "spacy" and "re" and raises
ValueError for every other identifier - including "entity-ruler", for which
`update_config` has a dedicated (dead) construction branch - so every
rebuilding `update_config` whose recognizer declares BACKEND
"entity-ruler" raises. -/
theorem claim_C9 :
    backends_load "spacy" = Except.ok "SpacyBackend"
    ∧ backends_load "re" = Except.ok "ReBackend"
    ∧ (∀ b, b ≠ "spacy" → b ≠ "re" →
        backends_load b = Except.error ("Unknow backend type " ++ b))
    ∧ ∀ (fs : FileSystem) (st : Core) (cfg : Config) (p : String),
        st.config ≠ some cfg → p ∈ cfg.recognizer_paths → fs.isFile p = true →
        (fs.loadClass p).BACKEND = "entity-ruler" →
        ((Core.update_config fs st cfg).2.2).isSome = true := by
  refine ⟨rfl, rfl, ?_, ?_⟩
  · intro b h1 h2
    rw [backends_load, if_neg h1, if_neg h2]
  · intro fs st cfg p hne hp hfile hbk
    refine update_config_unknown_backend fs st cfg p hne hp hfile ?_
    rw [hbk]
    decide

/-- Witness for C9: the loader rejects "entity-ruler", and a config whose
single recognizer declares it makes `update_config` raise. -/
theorem claim_C9_witness :
    backends_load "entity-ruler" = Except.error ("Unknow backend type " ++ "entity-ruler")
    ∧ ((Core.update_config fs9 core0 cfg9).2.2).isSome = true :=
  ⟨claim_C9.2.2.1 "entity-ruler" (by decide) (by decide),
   claim_C9.2.2.2 fs9 core0 cfg9 "ruler_recognizer.py" (by decide) (by decide) rfl rfl⟩

/-- C7 as stated is false: `FlairNerBackend.register_recognizer` raises
NotImplementedError for every recognizer descriptor, here at a concrete
backend instance and descriptor. -/
theorem claim_C7_counterexample :
    FlairNerBackend.register_recognizer flair0 EmailRecognizer =
      Except.error ("NotImplementedError") := rfl

/-- C7 amended: `register_recognizer` installs the recognizer as a pure
side effect and returns without raising for the backends that implement it
- `EntityRulerBackend` adds the recognizer's pipes and rules - but
`FlairNerBackend.register_recognizer` always raises NotImplementedError. -/
theorem claim_C7_amended (b : EntityRulerBackend) (fb : FlairNerBackend)
    (cls : RecognizerCls) :
    (∃ b', EntityRulerBackend.register_recognizer b cls = Except.ok b'
        ∧ b'.pipe_names = b.pipe_names ++ [cls.name, "label_" ++ cls.name]
        ∧ b'.rules = b.rules ++ cls.payload.map (fun p => (cls.TAG, p)))
    ∧ FlairNerBackend.register_recognizer fb cls = Except.error ("NotImplementedError") :=
  ⟨⟨_, rfl, rfl, rfl⟩, rfl⟩

/-- C10: when `update_config` succeeds and leaves no backend registered,
`recognize` returns a result whose "ents" entry is the empty list without
consulting the combination strategy (the result is the same for every
`combine`), and the result carries a "tokens" entry exactly when
`compute_tokens` is true. -/
theorem claim_C10 (fs : FileSystem) (env : Env)
    (combine : List (List NamedEntity) → String → List NamedEntity) (st : Core)
    (cfg : Config) (strategy : String) (ctw cpt : Bool) (text : String)
    (hok : (Core.update_config fs st cfg).2.2 = none)
    (hnb : ((Core.update_config fs st cfg).1).backends = []) :
    (recognize fs env combine st text cfg strategy ctw cpt).2.2 =
      Except.ok { tokens := if cpt then some (env.tokenize text) else none, ents := [] } := by
  simp only [recognize, Core.run_recognition, run_in_parallel, hok, hnb, List.map_nil,
    List.length_nil, List.range_zero, collectChannels, if_true, ite_self, boost_ents]

/-- Witness for C10: an empty config yields no backends; `recognize` with a
sentinel-producing combination strategy still returns empty "ents" and, with
`compute_tokens` true, a "tokens" entry. -/
theorem claim_C10_witness :
    (Core.update_config fs0 core0 cfg10).2.2 = none
    ∧ ((Core.update_config fs0 core0 cfg10).1).backends = []
    ∧ (recognize fs0 env0 combine0 core0 "x" cfg10 "fusion" true true).2.2 =
        Except.ok { tokens := if true then some (env0.tokenize "x") else none, ents := [] } :=
  ⟨rfl, rfl, claim_C10 fs0 env0 combine0 core0 cfg10 "fusion" true true "x" rfl rfl⟩
